import Mathlib

/-
Verification development for the fly-scan controller of
`profile_mona_development_2018_04/startup/55-flyer-demo.py`
(class `SpinFlyer` and its collaborators).

The Python class is shallowly embedded as pure Lean functions over an
explicit state record.  Conventions used throughout:

* Python floats (positions, timestamps) are modelled as `Rat`.
* A raised Python exception is modelled by an `Except` error value, or,
  for code running on a background thread, by a `Bool` flag `false`
  (the thread dies; the caller never observes the exception).
* Hardware writes are additionally logged as a `List HwOp` trace, so
  that ordering claims about the hardware protocol can be stated.
* The one hardware failure source needed by the claims is a motor move
  that raises; it is injected through `Env.moveFails`.
* Blocking poll loops (`complete`, the wait for the HDF5 file write)
  are modelled against a snapshot of the observable state: the loop
  body exits immediately when the observed condition is already false,
  and a loop whose condition stays true is reported as still blocked.
-/

namespace FlyerDemo

/-- Model of Python `str.lower()` (maps every character to lower case). -/
def strLower (s : String) : String := String.mk (s.data.map Char.toLower)

/-- Model of `ophyd.DeviceStatus`: a completion future that resolves at
most once, with a success flag (lines 85, 147 of the source create one;
`_finished` resolves it). -/
structure DeviceStatus where
  done : Bool
  success : Bool
deriving DecidableEq, Repr

/-- Model of `DeviceStatus._finished(success=...)` (lines 103, 180). -/
def DeviceStatus.finished (st : DeviceStatus) (success : Bool) : DeviceStatus :=
  { st with done := true, success := success }

/-- The unresolved future as freshly constructed by `DeviceStatus(...)`. -/
def DeviceStatus.fresh : DeviceStatus := { done := false, success := false }

/-- Model of the motor (Actuator): current position and moving status. -/
structure Motor where
  position : Rat
  moving : Bool
deriving DecidableEq, Repr

/-- Environment of a run: whether the hardware motor move raises
(`HardwareCommunicationError` source), and the readings of `time.time()`
(one reading per spin, indexed by the spin number). -/
structure Env where
  moveFails : Bool
  clock : Nat → Rat

/-- Detector signals touched by the flyer (`detector.cam.array_counter`
and the `detector.hdf1` plugin signals). -/
inductive Signal
  | cam_array_counter
  | hdf1_enable
  | hdf1_file_write_mode
  | hdf1_num_capture
  | hdf1_capture
  | hdf1_write_file
deriving DecidableEq, Repr

/-- A value written by a `.put(...)` call. -/
inductive PutValue
  | nat (n : Nat)
  | str (s : String)
deriving DecidableEq, Repr

/-- One hardware side effect, as logged in the operation trace. -/
inductive HwOp
  | motorMove (target : Rat)
  | busyPut (b : Bool)
  | detPut (sig : Signal) (val : PutValue)
deriving DecidableEq, Repr

/-- Model of `motor.move(target)`: synchronous; on success the motor is
at `target` and no longer moving.  If the hardware raises
(`env.moveFails`), the state is unchanged, nothing is logged, and the
`Bool` result is `false` (an exception propagates to the caller). -/
def Motor.move (env : Env) (m : Motor) (target : Rat) : Motor × List HwOp × Bool :=
  if env.moveFails then (m, [], false)
  else ({ m with position := target, moving := false }, [HwOp.motorMove target], true)

/-- Model of the detector state observed by the flyer: the writable
signals of `cam`/`hdf1`, plus the `full_file_name` readback used by
`_spin_sequence` (its `.read()` dictionary key, value and timestamp). -/
structure Detector where
  array_counter : Nat
  enable : String
  file_write_mode : String
  num_capture : Nat
  capture : String
  write_file : Nat
  ffn_key : String
  ffn_value : String
  ffn_timestamp : Rat
deriving DecidableEq, Repr

/-- Model of one proto-event (`AcquisitionRecord`) appended by
`_spin_sequence` (lines 166-177): time, 1-based sequence number, and
data/timestamps read from `detector.hdf1.full_file_name`. -/
structure Event where
  time : Rat
  seq_num : Nat
  data : List (String × String)
  timestamps : List (String × Rat)
deriving DecidableEq, Repr

/-- The mutable state of one `SpinFlyer` instance together with the
hardware it holds non-owning references to (motor, detector, busy
record).  Mirrors the attributes assigned in `__init__`
(lines 50-65). -/
structure SpinFlyerState where
  motor : Motor
  detector : Detector
  busy : Bool
  pre_start : Rat
  return_position : Rat
  pos_start : Rat
  pos_finish : Rat
  num_spins : Nat
  completion_status : Option DeviceStatus
  data : List Event
deriving DecidableEq, Repr

/-- Errors raised by the flyer.  The source raises builtin `ValueError`
(the ValidationError of the spec) and `RuntimeError` (the
ConcurrencyError of the spec); the carried string is the message. -/
inductive FlyErr
  | valueError (msg : String)
  | runtimeError (msg : String)
deriving DecidableEq, Repr

namespace SpinFlyer

/-- Model of `SpinFlyer.__init__` (lines 41-65): stores the hardware
references and positions; `return_position` is initialised to the
current motor position; `num_spins = 1`; no completion status; empty
data deque. -/
def init (motor : Motor) (detector : Detector) (busy : Bool)
    (pre_start : Rat) (pos_start : Rat) (pos_finish : Rat) : SpinFlyerState :=
  { motor := motor
    detector := detector
    busy := busy
    pre_start := pre_start
    return_position := motor.position
    pos_start := pos_start
    pos_finish := pos_finish
    num_spins := 1
    completion_status := none
    data := [] }

/-- Model of `SpinFlyer.taxi` (lines 67-70): move the motor to
`pos_start + pre_start`. -/
def taxi (env : Env) (s : SpinFlyerState) : SpinFlyerState × List HwOp × Bool :=
  match Motor.move env s.motor (s.pos_start + s.pre_start) with
  | (m, tr, ok) => ({ s with motor := m }, tr, ok)

/-- Model of `SpinFlyer.fly` (lines 72-73): move the motor to
`pos_finish`. -/
def fly (env : Env) (s : SpinFlyerState) : SpinFlyerState × List HwOp × Bool :=
  match Motor.move env s.motor s.pos_finish with
  | (m, tr, ok) => ({ s with motor := m }, tr, ok)

/-- Model of `SpinFlyer.pre_fly` (lines 108-123): the ordered arm
choreography of the capture device, logged put by put. -/
def pre_fly (max_frames : Nat) (s : SpinFlyerState) : SpinFlyerState × List HwOp :=
  let d0 := s.detector
  let d1 := { d0 with array_counter := 0 }
  let d2 := { d1 with enable := "Enable" }
  let d3 := { d2 with file_write_mode := "Capture" }
  let d4 := { d3 with num_capture := max_frames }
  let d5 := { d4 with capture := "Capture" }
  ({ s with detector := d5 },
   [HwOp.detPut Signal.cam_array_counter (PutValue.nat 0),
    HwOp.detPut Signal.hdf1_enable (PutValue.str "Enable"),
    HwOp.detPut Signal.hdf1_file_write_mode (PutValue.str "Capture"),
    HwOp.detPut Signal.hdf1_num_capture (PutValue.nat max_frames),
    HwOp.detPut Signal.hdf1_capture (PutValue.str "Capture")])

/-- Model of `SpinFlyer.post_fly` (lines 125-136): the ordered disarm
choreography of the capture device, logged put by put. -/
def post_fly (s : SpinFlyerState) : SpinFlyerState × List HwOp :=
  let d0 := s.detector
  let d1 := { d0 with capture := "Done" }
  let d2 := { d1 with write_file := 1 }
  let d3 := { d2 with file_write_mode := "Single" }
  let d4 := { d3 with num_capture := 1 }
  let d5 := { d4 with enable := "Disable" }
  ({ s with detector := d5 },
   [HwOp.detPut Signal.hdf1_capture (PutValue.str "Done"),
    HwOp.detPut Signal.hdf1_write_file (PutValue.nat 1),
    HwOp.detPut Signal.hdf1_file_write_mode (PutValue.str "Single"),
    HwOp.detPut Signal.hdf1_num_capture (PutValue.nat 1),
    HwOp.detPut Signal.hdf1_enable (PutValue.str "Disable")])

/-- Modelled from the spec: `det_pre_acquire`, called by
`_spin_sequence` (line 159), is not defined in the sources under study.
Spec section 4.3 step 2 gives its behaviour as the arm choreography of
section 4.4, which is exactly `pre_fly` with the maximum frame count. -/
def det_pre_acquire (s : SpinFlyerState) : SpinFlyerState × List HwOp :=
  pre_fly 10000 s

/-- Modelled from the spec: `det_post_acquire`, called by
`_spin_sequence` (line 161), is not defined in the sources under study.
Spec section 4.3 step 4 gives its behaviour as the disarm choreography
of section 4.4, which is exactly `post_fly`. -/
def det_post_acquire (s : SpinFlyerState) : SpinFlyerState × List HwOp :=
  post_fly s

/-- Model of the inner `action()` of `SpinFlyer.set` (lines 87-96):
dispatch on the lower-cased command.  A failing motor move raises; the
state reached so far and the trace so far are kept and the `Bool`
result records whether the action completed. -/
def action (env : Env) (v : String) (s : SpinFlyerState) :
    SpinFlyerState × List HwOp × Bool :=
  if strLower v = "taxi" then
    taxi env s
  else if strLower v = "fly" then
    match pre_fly 10000 s with
    | (s1, t1) =>
      match fly env s1 with
      | (s2, t2, false) => (s2, t1 ++ t2, false)
      | (s2, t2, true) =>
        match post_fly s2 with
        | (s3, t3) => (s3, t1 ++ t2 ++ t3, true)
  else if strLower v = "return" then
    match Motor.move env s.motor s.return_position with
    | (m, tr, ok) => ({ s with motor := m }, tr, ok)
  else
    (s, [], true)

/-- Model of the inner `run_and_wait()` thread body of `SpinFlyer.set`
(lines 98-103), run to completion: set the busy flag, run the action,
clear the busy flag and resolve the status.  If the action raises, the
thread dies there: the busy flag is NOT cleared and the status is NOT
resolved. -/
def run_and_wait (env : Env) (v : String) (s : SpinFlyerState) (st : DeviceStatus) :
    SpinFlyerState × DeviceStatus × List HwOp :=
  match action env v { s with busy := true } with
  | (s1, tr, true) =>
    ({ s1 with busy := false }, DeviceStatus.finished st true,
     HwOp.busyPut true :: tr ++ [HwOp.busyPut false])
  | (s1, tr, false) =>
    (s1, st, HwOp.busyPut true :: tr)

/-- Model of `SpinFlyer.set` (lines 75-106) followed by waiting for the
spawned thread to finish (as the bluesky `mv` plan does): validate the
command token, check the busy flag, then run `run_and_wait` on a fresh
`DeviceStatus`.  On a validation or busy error nothing is spawned: the
state is returned unchanged with an empty trace. -/
def set (env : Env) (v : String) (s : SpinFlyerState) :
    SpinFlyerState × Except FlyErr DeviceStatus × List HwOp :=
  if (["fly", "taxi", "return"].contains (strLower v)) = false then
    (s, Except.error (FlyErr.valueError "value should be either Taxi, Fly, or Return."), [])
  else if s.busy = true then
    (s, Except.error (FlyErr.runtimeError "spin is operating"), [])
  else
    match run_and_wait env v s DeviceStatus.fresh with
    | (s1, st1, tr) => (s1, Except.ok st1, tr)

/-- Model of `SpinFlyer.kickoff` (lines 138-148): refuse if a
completion status is stored (`is not None`), else clear the data deque,
launch `_spin_sequence` in the executor (the launch itself mutates
nothing observable here; the background run is applied separately) and
store a fresh `DeviceStatus`, returning it. -/
def kickoff (s : SpinFlyerState) : SpinFlyerState × Except FlyErr DeviceStatus :=
  match s.completion_status with
  | some _ => (s, Except.error (FlyErr.runtimeError "Already kicked off."))
  | none =>
    ({ s with data := [], completion_status := some DeviceStatus.fresh },
     Except.ok DeviceStatus.fresh)

/-- Model of one iteration of the `for spin_num in range(...)` loop of
`SpinFlyer._spin_sequence` (lines 156-177): taxi, arm the detector,
fly, disarm the detector, wait for the HDF5 file write to finish
(modelled as the hardware completing the write, after which
`write_file` reads 0 and the poll loop exits), then append the
proto-event with `seq_num = spin_num + 1`. -/
def spinOnce (env : Env) (spin_num : Nat) (s : SpinFlyerState) :
    SpinFlyerState × List HwOp × Bool :=
  match taxi env s with
  | (s1, t1, false) => (s1, t1, false)
  | (s1, t1, true) =>
    match det_pre_acquire s1 with
    | (s2, t2) =>
      match fly env s2 with
      | (s3, t3, false) => (s3, t1 ++ t2 ++ t3, false)
      | (s3, t3, true) =>
        match det_post_acquire s3 with
        | (s4, t4) =>
          let s5 := { s4 with detector := { s4.detector with write_file := 0 } }
          let ev : Event :=
            { time := env.clock spin_num
              seq_num := spin_num + 1
              data := [(s5.detector.ffn_key, s5.detector.ffn_value)]
              timestamps := [(s5.detector.ffn_key, s5.detector.ffn_timestamp)] }
          ({ s5 with data := s5.data ++ [ev] }, t1 ++ t2 ++ t3 ++ t4, true)

/-- The `for spin_num in range(num_spins)` loop of `_spin_sequence`:
`k` iterations remain and `i` is the next spin number.  A raising
iteration aborts the loop (the exception propagates). -/
def spinLoop (env : Env) : Nat → Nat → SpinFlyerState → SpinFlyerState × Bool
  | 0, _, s => (s, true)
  | Nat.succ k, i, s =>
    match spinOnce env i s with
    | (s1, _, true) => spinLoop env k (i + 1) s1
    | (s1, _, false) => (s1, false)

/-- Model of `SpinFlyer._spin_sequence` (lines 150-180), run to
completion on the background thread: record the return position, run
the spin loop, issue `self.set("Return")` and wait for it, and resolve
the stored completion status with success.  The `Bool` result is
`false` when an exception killed the thread (including the source
hazard at line 180 where no completion status is stored). -/
def spin_sequence (env : Env) (s : SpinFlyerState) : SpinFlyerState × Bool :=
  let s0 := { s with return_position := s.motor.position }
  match spinLoop env s0.num_spins 0 s0 with
  | (s1, false) => (s1, false)
  | (s1, true) =>
    match set env "Return" s1 with
    | (s2, Except.ok _, _) =>
      match s2.completion_status with
      | none => (s2, false)
      | some st =>
        ({ s2 with completion_status := some (DeviceStatus.finished st true) }, true)
    | (s2, Except.error _, _) => (s2, false)

/-- Model of `SpinFlyer.complete` (lines 203-213) against a snapshot of
the observable state (the schedule in which the background task makes
no progress while `complete` polls): without a stored completion status
it raises; otherwise it polls `motor.moving` and returns the stored
status once the motor reports idle.  `none` inside `Except.ok` means
the call is still blocked polling. -/
def complete (s : SpinFlyerState) : Except FlyErr (Option DeviceStatus) :=
  match s.completion_status with
  | none => Except.error (FlyErr.runtimeError "No collection in progress")
  | some st =>
    if s.motor.moving then Except.ok none
    else Except.ok (some st)

/-- Model of CALLING the generator function `SpinFlyer.collect`
(lines 215-223): in Python, calling a generator function executes none
of its body; it only creates a suspended generator closed over `self`.
No check runs and the state is untouched. -/
def collectCall (s : SpinFlyerState) : SpinFlyerState := s

/-- Model of RUNNING the body of the `collect` generator (entered when
the first element is requested) through to exhaustion: the guard
(line 219) raises unless a resolved completion status is stored;
otherwise the stored status reference is cleared (line 221) and the
buffered events are yielded in insertion order (line 223). -/
def collect (s : SpinFlyerState) : Except FlyErr (SpinFlyerState × List Event) :=
  match s.completion_status with
  | none => Except.error (FlyErr.runtimeError "No reading until done!")
  | some st =>
    if st.done = false then Except.error (FlyErr.runtimeError "No reading until done!")
    else Except.ok ({ s with completion_status := none }, s.data)

/-- The full three-phase protocol in the schedule where the background
task runs to completion between `kickoff` and `complete`:
`kickoff()`, the background `_spin_sequence`, `complete()`, and a full
drain of `collect()`. -/
def flyScan (env : Env) (s : SpinFlyerState) :
    Except FlyErr (SpinFlyerState × List Event) :=
  match kickoff s with
  | (_, Except.error e) => Except.error e
  | (s1, Except.ok _) =>
    match spin_sequence env s1 with
    | (_, false) => Except.error (FlyErr.runtimeError "background task died")
    | (s2, true) =>
      match complete s2 with
      | Except.error e => Except.error e
      | Except.ok none => Except.error (FlyErr.runtimeError "complete still blocked")
      | Except.ok (some _) => collect s2

end SpinFlyer

/-- The steps of `SpinFlyer.kickoff` (lines 144-147) in program order:
clear the data deque, submit `_spin_sequence` to the executor, then
construct and store the new `DeviceStatus`. -/
inductive KickoffStep
  | clearBuffer
  | launchBackground
  | createStatus
deriving DecidableEq, Repr

/-- Abstract step names for `_spin_sequence`. -/
inductive SpinStep
  | recordReturnPos
  | taxiMove
  | armDetector
  | flyMove
  | disarmDetector
  | waitFileWrite
  | appendRecord
  | returnCommand
  | resolveStatus
deriving DecidableEq, Repr

/-- Program order of `SpinFlyer.kickoff` after its guard (lines
144-147 of the source, in textual order). -/
def kickoffOrder : List KickoffStep :=
  [KickoffStep.clearBuffer, KickoffStep.launchBackground, KickoffStep.createStatus]

/-- Program order of `SpinFlyer._spin_sequence` (lines 154-180) for `n`
spins: the very first statement of the background task records the
return position (line 154). -/
def spinSequenceOrder (n : Nat) : List SpinStep :=
  SpinStep.recordReturnPos ::
    ((List.range n).flatMap fun _ =>
      [SpinStep.taxiMove, SpinStep.armDetector, SpinStep.flyMove,
       SpinStep.disarmDetector, SpinStep.waitFileWrite, SpinStep.appendRecord])
    ++ [SpinStep.returnCommand, SpinStep.resolveStatus]

/-- Abstract protocol step names of the arm/disarm choreography. -/
inductive ArmStep
  | resetCounter
  | enablePlugin
  | setModeCapture
  | setMaxFrames
  | startCapture
  | stopCapture
  | writeFile
  | setModeSingle
  | setMaxFramesOne
  | disablePlugin
deriving DecidableEq, Repr

/-- Names each logged hardware put as the abstract protocol step it
performs (the vocabulary of the arm/disarm choreography). -/
def stepOf : HwOp → Option ArmStep
  | HwOp.detPut Signal.cam_array_counter (PutValue.nat 0) => some ArmStep.resetCounter
  | HwOp.detPut Signal.hdf1_enable (PutValue.str "Enable") => some ArmStep.enablePlugin
  | HwOp.detPut Signal.hdf1_enable (PutValue.str "Disable") => some ArmStep.disablePlugin
  | HwOp.detPut Signal.hdf1_file_write_mode (PutValue.str "Capture") =>
      some ArmStep.setModeCapture
  | HwOp.detPut Signal.hdf1_file_write_mode (PutValue.str "Single") =>
      some ArmStep.setModeSingle
  | HwOp.detPut Signal.hdf1_num_capture (PutValue.nat n) =>
      some (if n = 1 then ArmStep.setMaxFramesOne else ArmStep.setMaxFrames)
  | HwOp.detPut Signal.hdf1_capture (PutValue.str "Capture") => some ArmStep.startCapture
  | HwOp.detPut Signal.hdf1_capture (PutValue.str "Done") => some ArmStep.stopCapture
  | HwOp.detPut Signal.hdf1_write_file (PutValue.nat 1) => some ArmStep.writeFile
  | _ => none

/-- A concrete idle motor at position 0. -/
def motor0 : Motor := { position := 0, moving := false }

/-- A concrete detector in its default quiescent configuration. -/
def det0 : Detector :=
  { array_counter := 0
    enable := "Disable"
    file_write_mode := "Single"
    num_capture := 1
    capture := "Done"
    write_file := 0
    ffn_key := "simdet_hdf1_full_file_name"
    ffn_value := "/tmp/data_0001.h5"
    ffn_timestamp := 10 }

/-- A failure-free environment with a constant clock. -/
def env0 : Env := { moveFails := false, clock := fun _ => 0 }

/-- An environment in which the hardware motor move raises. -/
def envFail : Env := { moveFails := true, clock := fun _ => 0 }

/-- A freshly constructed flyer with the default constructor arguments
of the source (`pre_start=-0.5, pos_start=-20, pos_finish=20`), idle
busy record. -/
def s0 : SpinFlyerState := SpinFlyer.init motor0 det0 false (-1/2) (-20) 20

/-- The fresh flyer with the busy record already set by some other
operation. -/
def s0busy : SpinFlyerState := { s0 with busy := true }

/-- A flyer whose previous run has finished: the completion status is
stored and resolved, but `collect` has not yet cleared it. -/
def sResolved : SpinFlyerState :=
  { s0 with completion_status := some { done := true, success := true } }

/-- The fresh flyer right after `kickoff()` returned, in the legal
schedule where the background task has not yet executed any step. -/
def sKicked : SpinFlyerState := (SpinFlyer.kickoff s0).1

/-- The fresh flyer configured for three cycles (`num_spins = 3`). -/
def sN3 : SpinFlyerState := { s0 with num_spins := 3 }

/-- The command action only ever touches the motor and the detector:
every other flyer attribute, including the busy flag, is left alone. -/
theorem action_preserves (env : Env) (v : String) (s : SpinFlyerState) :
    ((SpinFlyer.action env v s).1).busy = s.busy ∧
    ((SpinFlyer.action env v s).1).completion_status = s.completion_status ∧
    ((SpinFlyer.action env v s).1).data = s.data ∧
    ((SpinFlyer.action env v s).1).num_spins = s.num_spins ∧
    ((SpinFlyer.action env v s).1).return_position = s.return_position ∧
    ((SpinFlyer.action env v s).1).pos_start = s.pos_start ∧
    ((SpinFlyer.action env v s).1).pre_start = s.pre_start ∧
    ((SpinFlyer.action env v s).1).pos_finish = s.pos_finish := by
  unfold SpinFlyer.action SpinFlyer.taxi SpinFlyer.fly SpinFlyer.pre_fly
    SpinFlyer.post_fly Motor.move
  cases hm : env.moveFails <;> split_ifs <;> simp

/-- The command action never writes the busy flag: its hardware trace
holds no busy put. -/
theorem action_no_busyPut (env : Env) (v : String) (s : SpinFlyerState) (b : Bool) :
    HwOp.busyPut b ∉ (SpinFlyer.action env v s).2.1 := by
  unfold SpinFlyer.action SpinFlyer.taxi SpinFlyer.fly SpinFlyer.pre_fly
    SpinFlyer.post_fly Motor.move
  cases hm : env.moveFails <;> split_ifs <;> simp

/-- C4: an input token that is not case-insensitively one of taxi, fly,
return makes `set()` fail with the ValidationError (`ValueError`), with
the state unchanged (so the busy flag keeps reading false when it was
false) and no hardware trace; a valid token while the busy flag reads
true makes `set()` fail with the ConcurrencyError (`RuntimeError`,
"spin is operating"), again with the state unchanged and an empty
hardware trace, so no background work starts and no actuator or capture
device side effect happens. -/
theorem claim_C4 (env : Env) (v : String) (s : SpinFlyerState) :
    ((["fly", "taxi", "return"].contains (strLower v)) = false →
      SpinFlyer.set env v s =
        (s, Except.error
              (FlyErr.valueError "value should be either Taxi, Fly, or Return."), [])) ∧
    ((["fly", "taxi", "return"].contains (strLower v)) = true → s.busy = true →
      SpinFlyer.set env v s =
        (s, Except.error (FlyErr.runtimeError "spin is operating"), [])) := by
  constructor
  · intro h
    unfold SpinFlyer.set
    rw [h]
    simp
  · intro h hb
    unfold SpinFlyer.set
    rw [h, hb]
    simp

/-- Witness for C4 at the concrete inputs of the spec scenarios: the
token `"Spin"` on the idle fresh flyer, and the valid token `"Fly"`
while the busy flag is set. -/
theorem claim_C4_witness :
    (["fly", "taxi", "return"].contains (strLower "Spin")) = false ∧
    SpinFlyer.set env0 "Spin" s0 =
      (s0, Except.error
             (FlyErr.valueError "value should be either Taxi, Fly, or Return."), []) ∧
    s0busy.busy = true ∧
    SpinFlyer.set env0 "Fly" s0busy =
      (s0busy, Except.error (FlyErr.runtimeError "spin is operating"), []) :=
  ⟨by decide, (claim_C4 env0 "Spin" s0).1 (by decide), rfl,
   (claim_C4 env0 "Fly" s0busy).2 (by decide) rfl⟩

/-- C5, counterexample to the second half of the claim: on a flyer
whose previous run has resolved its completion future (done and
successful) but whose `collect` has not yet run, `kickoff()` fails with
the ConcurrencyError even though no unresolved future is outstanding,
because the guard tests `_completion_status is not None`, not whether
it is unresolved. -/
theorem claim_C5_cex :
    sResolved.completion_status = some { done := true, success := true } ∧
    (SpinFlyer.kickoff sResolved).2 =
      Except.error (FlyErr.runtimeError "Already kicked off.") :=
  ⟨rfl, rfl⟩

/-- C5, amended: `kickoff()` fails with the ConcurrencyError whenever a
completion future reference is stored, resolved or not, and then leaves
the whole state (in particular the result buffer) unchanged; it
succeeds exactly when no reference is stored (initially, or after
`collect` cleared it), clearing the buffer and storing a fresh
future. -/
theorem claim_C5 (s : SpinFlyerState) :
    (∀ st, s.completion_status = some st →
      SpinFlyer.kickoff s =
        (s, Except.error (FlyErr.runtimeError "Already kicked off."))) ∧
    (s.completion_status = none →
      SpinFlyer.kickoff s =
        ({ s with data := [], completion_status := some DeviceStatus.fresh },
         Except.ok DeviceStatus.fresh)) := by
  constructor
  · intro st h
    unfold SpinFlyer.kickoff
    rw [h]
  · intro h
    unfold SpinFlyer.kickoff
    rw [h]

/-- Witness for C5 at concrete inputs: the resolved-but-uncollected
flyer (kickoff refused, state kept) and the fresh flyer (kickoff
succeeds). -/
theorem claim_C5_witness :
    SpinFlyer.kickoff sResolved =
      (sResolved, Except.error (FlyErr.runtimeError "Already kicked off.")) ∧
    SpinFlyer.kickoff s0 =
      ({ s0 with data := [], completion_status := some DeviceStatus.fresh },
       Except.ok DeviceStatus.fresh) :=
  ⟨(claim_C5 sResolved).1 { done := true, success := true } rfl,
   (claim_C5 s0).2 rfl⟩

/-- C6, counterexample to the resolution guarantee: in the legal
schedule where the background executor has not yet run after
`kickoff()` (the motor is still idle), `complete()` returns at once,
handing back the stored completion future while it is still
unresolved. -/
theorem claim_C6_cex :
    SpinFlyer.complete sKicked = Except.ok (some DeviceStatus.fresh) ∧
    DeviceStatus.fresh.done = false :=
  ⟨rfl, rfl⟩

/-- C6, amended: `complete()` without a prior `kickoff()` fails with
the ConcurrencyError; otherwise it polls the motor moving status and,
once the motor reports idle, returns the stored completion future —
which may still be unresolved at that moment (the poll is a coarse
proxy, not a synchronisation with the background executor); while the
motor reports moving it stays blocked polling. -/
theorem claim_C6 (s : SpinFlyerState) :
    (s.completion_status = none →
      SpinFlyer.complete s =
        Except.error (FlyErr.runtimeError "No collection in progress")) ∧
    (∀ st, s.completion_status = some st → s.motor.moving = false →
      SpinFlyer.complete s = Except.ok (some st)) ∧
    (∀ st, s.completion_status = some st → s.motor.moving = true →
      SpinFlyer.complete s = Except.ok none) := by
  refine ⟨?_, ?_, ?_⟩
  · intro h
    unfold SpinFlyer.complete
    rw [h]
  · intro st h hm
    unfold SpinFlyer.complete
    rw [h, hm]
    simp
  · intro st h hm
    unfold SpinFlyer.complete
    rw [h, hm]
    simp

/-- Witness for C6 at concrete inputs: no kickoff yet, idle motor with
a stored future, and a moving motor with a stored future. -/
theorem claim_C6_witness :
    SpinFlyer.complete s0 =
      Except.error (FlyErr.runtimeError "No collection in progress") ∧
    SpinFlyer.complete sResolved =
      Except.ok (some { done := true, success := true }) ∧
    SpinFlyer.complete
        { sResolved with motor := { position := 0, moving := true } } =
      Except.ok none :=
  ⟨(claim_C6 s0).1 rfl,
   (claim_C6 sResolved).2.1 { done := true, success := true } rfl rfl,
   (claim_C6 { sResolved with motor := { position := 0, moving := true } }).2.2
     { done := true, success := true } rfl rfl⟩

/-- C7, counterexample: in the program order of `kickoff` the new
completion future is created only AFTER the background task is
submitted to the executor, and the return position is recorded by the
background task itself as its own first step — so, already for the
configured single-cycle run, neither happens strictly before the first
step of the background task. -/
theorem claim_C7_cex :
    kickoffOrder.indexOf KickoffStep.launchBackground <
      kickoffOrder.indexOf KickoffStep.createStatus ∧
    (spinSequenceOrder 1).head? = some SpinStep.recordReturnPos :=
  ⟨by decide, rfl⟩

/-- C7, amended: of the claimed initialisation order only the buffer
clearing precedes the launch of the background task; the completion
future is created after the launch, and the return position is recorded
by the background task itself as its first step (for every configured
number of cycles). -/
theorem claim_C7 :
    kickoffOrder.indexOf KickoffStep.clearBuffer <
      kickoffOrder.indexOf KickoffStep.launchBackground ∧
    kickoffOrder.indexOf KickoffStep.launchBackground <
      kickoffOrder.indexOf KickoffStep.createStatus ∧
    ∀ n, (spinSequenceOrder n).head? = some SpinStep.recordReturnPos :=
  ⟨by decide, by decide, fun _ => rfl⟩

/-- C8: the arm operation (`pre_fly`) issues exactly the ordered step
sequence reset-counter, enable-plugin, set-mode-to-capture,
set-max-frames, start-capture, and the disarm operation (`post_fly`)
issues exactly stop-capture, write-file, reset-mode-to-single,
reset-max-frames-to-one, disable-plugin; the traces hold these five
puts each and nothing else, in this order. -/
theorem claim_C8 (s : SpinFlyerState) (max_frames : Nat) (h : max_frames ≠ 1) :
    ((SpinFlyer.pre_fly max_frames s).2).filterMap stepOf =
      [ArmStep.resetCounter, ArmStep.enablePlugin, ArmStep.setModeCapture,
       ArmStep.setMaxFrames, ArmStep.startCapture] ∧
    ((SpinFlyer.pre_fly max_frames s).2).length = 5 ∧
    ((SpinFlyer.post_fly s).2).filterMap stepOf =
      [ArmStep.stopCapture, ArmStep.writeFile, ArmStep.setModeSingle,
       ArmStep.setMaxFramesOne, ArmStep.disablePlugin] ∧
    ((SpinFlyer.post_fly s).2).length = 5 := by
  refine ⟨?_, rfl, rfl, rfl⟩
  simp [SpinFlyer.pre_fly, stepOf, h]

/-- Witness for C8 at the maximum frame count the source uses
(`max_frames=10000`). -/
theorem claim_C8_witness :
    (10000 : Nat) ≠ 1 ∧
    ((SpinFlyer.pre_fly 10000 s0).2).filterMap stepOf =
      [ArmStep.resetCounter, ArmStep.enablePlugin, ArmStep.setModeCapture,
       ArmStep.setMaxFrames, ArmStep.startCapture] :=
  ⟨by decide, (claim_C8 s0 10000 (by decide)).1⟩

/-- C3: read at the level of the drained generator, `collect` fails
with the ConcurrencyError ("No reading until done!") while the stored
completion future is missing or unresolved; once it is resolved, one
drain clears the stored future reference and produces exactly the
buffered records in insertion order, and a second drain without a new
`kickoff()` fails with the ConcurrencyError again (one-shot, not
restartable). -/
theorem claim_C3 (s : SpinFlyerState) :
    (s.completion_status = none →
      SpinFlyer.collect s =
        Except.error (FlyErr.runtimeError "No reading until done!")) ∧
    (∀ st, s.completion_status = some st → st.done = false →
      SpinFlyer.collect s =
        Except.error (FlyErr.runtimeError "No reading until done!")) ∧
    (∀ st, s.completion_status = some st → st.done = true →
      SpinFlyer.collect s =
        Except.ok ({ s with completion_status := none }, s.data) ∧
      SpinFlyer.collect { s with completion_status := none } =
        Except.error (FlyErr.runtimeError "No reading until done!")) := by
  refine ⟨?_, ?_, ?_⟩
  · intro h
    unfold SpinFlyer.collect
    rw [h]
  · intro st h hd
    unfold SpinFlyer.collect
    rw [h]
    simp [hd]
  · intro st h hd
    constructor
    · unfold SpinFlyer.collect
      rw [h]
      simp [hd]
    · rfl

/-- Witness for C3 at concrete inputs: draining before resolution (just
after kickoff), draining after resolution, and draining a second
time. -/
theorem claim_C3_witness :
    SpinFlyer.collect sKicked =
      Except.error (FlyErr.runtimeError "No reading until done!") ∧
    SpinFlyer.collect sResolved =
      Except.ok ({ sResolved with completion_status := none }, sResolved.data) ∧
    SpinFlyer.collect { sResolved with completion_status := none } =
      Except.error (FlyErr.runtimeError "No reading until done!") :=
  ⟨(claim_C3 sKicked).2.1 DeviceStatus.fresh rfl rfl,
   ((claim_C3 sResolved).2.2 { done := true, success := true } rfl rfl).1,
   ((claim_C3 sResolved).2.2 { done := true, success := true } rfl rfl).2⟩

/-- C10: `collect` is a generator function, so the bare call performs
no validation and no mutation at all — it merely creates the suspended
generator (`collectCall` is the identity on the state) — while the "No
reading until done!" ConcurrencyError of an unresolved run is raised
only when the first element is requested (modelled by running the
generator body, `collect`). -/
theorem claim_C10 (s : SpinFlyerState)
    (h : ∀ st, s.completion_status = some st → st.done = false) :
    SpinFlyer.collectCall s = s ∧
    SpinFlyer.collect s =
      Except.error (FlyErr.runtimeError "No reading until done!") := by
  refine ⟨rfl, ?_⟩
  unfold SpinFlyer.collect
  cases hc : s.completion_status with
  | none => rfl
  | some st =>
    simp [h st hc]

/-- Witness for C10 on the flyer just after `kickoff()`: the bare call
returns without raising and without touching the state, while asking
for the first element raises. -/
theorem claim_C10_witness :
    SpinFlyer.collectCall sKicked = sKicked ∧
    SpinFlyer.collect sKicked =
      Except.error (FlyErr.runtimeError "No reading until done!") :=
  claim_C10 sKicked (by
    intro st hst
    have h2 : DeviceStatus.fresh = st :=
      Option.some.inj (show some DeviceStatus.fresh = some st from hst)
    rw [← h2]
    rfl)

/-- C2, counterexample to the exit-path clause: dispatching the valid
command Taxi from an idle flyer while the hardware motor move raises
leaves the busy flag set forever — the thread body has no
finally-style release, so the flag is not cleared on the failing exit
path. -/
theorem claim_C2_cex :
    s0.busy = false ∧
    (SpinFlyer.set envFail "Taxi" s0).1.busy = true := by
  exact ⟨rfl, by decide⟩

/-- C2, amended: for every dispatched command action the busy flag is
set before the action and reads true throughout it (the action itself
never writes the flag, and its hardware trace holds no busy put); when
the action completes normally the flag is cleared and the status
resolved with success; but when a hardware step inside the action
raises, the thread dies with the flag still true and the status
unresolved — the flag is NOT cleared on the failing exit path. -/
theorem claim_C2 (env : Env) (v : String) (s : SpinFlyerState) (st : DeviceStatus) :
    (∀ b, HwOp.busyPut b ∉ (SpinFlyer.action env v { s with busy := true }).2.1) ∧
    ((SpinFlyer.action env v { s with busy := true }).1).busy = true ∧
    ((SpinFlyer.action env v { s with busy := true }).2.2 = true →
      (SpinFlyer.run_and_wait env v s st).1.busy = false ∧
      (SpinFlyer.run_and_wait env v s st).2.1 = DeviceStatus.finished st true) ∧
    ((SpinFlyer.action env v { s with busy := true }).2.2 = false →
      (SpinFlyer.run_and_wait env v s st).1.busy = true ∧
      (SpinFlyer.run_and_wait env v s st).2.1 = st) := by
  refine ⟨fun b => action_no_busyPut env v _ b, ?_, ?_, ?_⟩
  · exact (action_preserves env v { s with busy := true }).1
  · intro hok
    rcases ha : SpinFlyer.action env v { s with busy := true } with ⟨s1, tr, ok⟩
    rw [ha] at hok
    simp only at hok
    subst hok
    unfold SpinFlyer.run_and_wait
    rw [ha]
    exact ⟨rfl, rfl⟩
  · intro hok
    rcases ha : SpinFlyer.action env v { s with busy := true } with ⟨s1, tr, ok⟩
    rw [ha] at hok
    simp only at hok
    subst hok
    unfold SpinFlyer.run_and_wait
    rw [ha]
    refine ⟨?_, rfl⟩
    have hb := (action_preserves env v { s with busy := true }).1
    rw [ha] at hb
    exact hb

/-- Witness for C2, discharging both implications at concrete inputs:
the Taxi action on the idle flyer completes and clears the flag in the
failure-free environment, and dies leaving the flag set in the failing
one. -/
theorem claim_C2_witness :
    ((SpinFlyer.action env0 "Taxi" { s0 with busy := true }).2.2 = true ∧
      (SpinFlyer.run_and_wait env0 "Taxi" s0 DeviceStatus.fresh).1.busy = false) ∧
    ((SpinFlyer.action envFail "Taxi" { s0 with busy := true }).2.2 = false ∧
      (SpinFlyer.run_and_wait envFail "Taxi" s0 DeviceStatus.fresh).1.busy = true) :=
  ⟨⟨by decide, ((claim_C2 env0 "Taxi" s0 DeviceStatus.fresh).2.2.1 (by decide)).1⟩,
   ⟨by decide, ((claim_C2 envFail "Taxi" s0 DeviceStatus.fresh).2.2.2 (by decide)).1⟩⟩

/-- C9, counterexample: a cycle that does not start from the stored
return position does not round-trip.  From the fresh flyer (constructed
with the motor at 0, so the stored return position is 0), one Fly
command moves the motor to 20; the following full Taxi, Fly, Return
cycle then starts at position 20 but ends at 0 — the position recorded
at construction, not the position immediately before the cycle. -/
theorem claim_C9_cex :
    (SpinFlyer.set env0 "Fly" s0).1.motor.position = 20 ∧
    (SpinFlyer.set env0 "Return"
      (SpinFlyer.set env0 "Fly"
        (SpinFlyer.set env0 "Taxi"
          (SpinFlyer.set env0 "Fly" s0).1).1).1).1.motor.position = 0 ∧
    (0 : Rat) ≠ 20 :=
  ⟨by decide, by decide, by decide⟩

/-- C9, amended: after a full Taxi, Fly, Return cycle through the
command dispatcher (each action run to completion, no hardware
failure), the motor ends at the STORED return position — the position
captured at construction or at the start of the most recent spin
sequence — so the final position equals the pre-cycle position exactly
when the cycle began at that stored return position. -/
theorem claim_C9 (env : Env) (s : SpinFlyerState)
    (h1 : env.moveFails = false) (hb : s.busy = false) :
    (SpinFlyer.set env "Return"
      (SpinFlyer.set env "Fly"
        (SpinFlyer.set env "Taxi" s).1).1).1.motor.position = s.return_position ∧
    (s.motor.position = s.return_position →
      (SpinFlyer.set env "Return"
        (SpinFlyer.set env "Fly"
          (SpinFlyer.set env "Taxi" s).1).1).1.motor.position = s.motor.position) := by
  have hvT : (["fly", "taxi", "return"].contains (strLower "Taxi")) = true := by decide
  have hvF : (["fly", "taxi", "return"].contains (strLower "Fly")) = true := by decide
  have hvR : (["fly", "taxi", "return"].contains (strLower "Return")) = true := by decide
  have eT : strLower "Taxi" = "taxi" := by decide
  have nFt : ¬ (strLower "Fly" = "taxi") := by decide
  have eF : strLower "Fly" = "fly" := by decide
  have nRt : ¬ (strLower "Return" = "taxi") := by decide
  have nRf : ¬ (strLower "Return" = "fly") := by decide
  have eR : strLower "Return" = "return" := by decide
  have key : (SpinFlyer.set env "Return"
      (SpinFlyer.set env "Fly"
        (SpinFlyer.set env "Taxi" s).1).1).1.motor.position = s.return_position := by
    simp [SpinFlyer.set, SpinFlyer.run_and_wait, SpinFlyer.action, SpinFlyer.taxi,
      SpinFlyer.fly, SpinFlyer.pre_fly, SpinFlyer.post_fly, Motor.move,
      hvT, hvF, hvR, eT, nFt, eF, nRt, nRf, eR, h1, hb]
  exact ⟨key, fun hp => key.trans hp.symm⟩

/-- Witness for C9 on the fresh flyer, whose motor stands at its stored
return position, so the cycle does round-trip there. -/
theorem claim_C9_witness :
    env0.moveFails = false ∧ s0.busy = false ∧
    s0.motor.position = s0.return_position ∧
    (SpinFlyer.set env0 "Return"
      (SpinFlyer.set env0 "Fly"
        (SpinFlyer.set env0 "Taxi" s0).1).1).1.motor.position = s0.motor.position :=
  ⟨rfl, rfl, rfl, (claim_C9 env0 s0 rfl rfl).2 rfl⟩

/-- In a failure-free environment one loop iteration of
`_spin_sequence` completes, appends exactly one proto-event whose
`seq_num` is the spin number plus one, leaves the motor idle, and
touches no other flyer attribute. -/
theorem spinOnce_reduce (env : Env) (h1 : env.moveFails = false)
    (i : Nat) (s : SpinFlyerState) :
    (SpinFlyer.spinOnce env i s).2.2 = true ∧
    ((SpinFlyer.spinOnce env i s).1).data.map Event.seq_num
      = s.data.map Event.seq_num ++ [i + 1] ∧
    ((SpinFlyer.spinOnce env i s).1).completion_status = s.completion_status ∧
    ((SpinFlyer.spinOnce env i s).1).busy = s.busy ∧
    ((SpinFlyer.spinOnce env i s).1).num_spins = s.num_spins ∧
    ((SpinFlyer.spinOnce env i s).1).return_position = s.return_position ∧
    ((SpinFlyer.spinOnce env i s).1).motor.moving = false := by
  unfold SpinFlyer.spinOnce SpinFlyer.taxi SpinFlyer.fly SpinFlyer.det_pre_acquire
    SpinFlyer.det_post_acquire SpinFlyer.pre_fly SpinFlyer.post_fly Motor.move
  simp [h1]

/-- In a failure-free environment the whole spin loop completes: `k`
iterations starting at spin number `i` append exactly the proto-events
with `seq_num` running through `i+1, ..., i+k`, and every other flyer
attribute is untouched. -/
theorem spinLoop_spec (env : Env) (h1 : env.moveFails = false) :
    ∀ (k i : Nat) (s : SpinFlyerState),
      (SpinFlyer.spinLoop env k i s).2 = true ∧
      ((SpinFlyer.spinLoop env k i s).1).data.map Event.seq_num
        = s.data.map Event.seq_num ++ List.range' (i + 1) k ∧
      ((SpinFlyer.spinLoop env k i s).1).completion_status = s.completion_status ∧
      ((SpinFlyer.spinLoop env k i s).1).busy = s.busy ∧
      ((SpinFlyer.spinLoop env k i s).1).return_position = s.return_position := by
  intro k
  induction k with
  | zero =>
    intro i s
    simp [SpinFlyer.spinLoop]
  | succ n ih =>
    intro i s
    have h0 := spinOnce_reduce env h1 i s
    rcases hso : SpinFlyer.spinOnce env i s with ⟨s1, tr, ok⟩
    rw [hso] at h0
    simp only at h0
    obtain ⟨hok, hdata, hcs, hbusy, _, hret, _⟩ := h0
    subst hok
    obtain ⟨iok, idata, ics, ibusy, iret⟩ := ih (i + 1) s1
    rw [SpinFlyer.spinLoop, hso]
    refine ⟨iok, ?_, ics.trans hcs, ibusy.trans hbusy, iret.trans hret⟩
    calc (SpinFlyer.spinLoop env n (i + 1) s1).1.data.map Event.seq_num
        = s1.data.map Event.seq_num ++ List.range' (i + 1 + 1) n := idata
      _ = (s.data.map Event.seq_num ++ [i + 1]) ++ List.range' (i + 1 + 1) n := by
          rw [hdata]
      _ = s.data.map Event.seq_num ++ List.range' (i + 1) (n + 1) := by
          rw [List.append_assoc, List.range'_succ, List.singleton_append]

/-- With the busy flag clear and a failure-free environment, the
Return command issued by `_spin_sequence` moves the motor to the stored
return position, leaves it idle, clears the busy flag again and touches
nothing else. -/
theorem set_return_eq (env : Env) (s : SpinFlyerState)
    (h1 : env.moveFails = false) (hb : s.busy = false) :
    (SpinFlyer.set env "Return" s).1 =
      { s with motor := { position := s.return_position, moving := false },
               busy := false } ∧
    (SpinFlyer.set env "Return" s).2.1 =
      Except.ok (DeviceStatus.finished DeviceStatus.fresh true) := by
  have hvR : (["fly", "taxi", "return"].contains (strLower "Return")) = true := by decide
  have nRt : ¬ (strLower "Return" = "taxi") := by decide
  have nRf : ¬ (strLower "Return" = "fly") := by decide
  have eR : strLower "Return" = "return" := by decide
  refine ⟨?_, ?_⟩ <;>
    simp [SpinFlyer.set, SpinFlyer.run_and_wait, SpinFlyer.action, Motor.move,
      hvR, nRt, nRf, eR, h1, hb]

/-- With a stored completion status, a clear busy flag and a
failure-free environment, the background `_spin_sequence` runs to
completion: the buffer gains exactly the proto-events numbered
`1, ..., num_spins`, the stored status is resolved with success, the
motor ends idle, and the busy flag ends clear. -/
theorem spin_sequence_spec (env : Env) (s : SpinFlyerState) (st : DeviceStatus)
    (h1 : env.moveFails = false) (hb : s.busy = false)
    (hc : s.completion_status = some st) :
    (SpinFlyer.spin_sequence env s).2 = true ∧
    ((SpinFlyer.spin_sequence env s).1).data.map Event.seq_num
      = s.data.map Event.seq_num ++ List.range' 1 s.num_spins ∧
    ((SpinFlyer.spin_sequence env s).1).completion_status
      = some (DeviceStatus.finished st true) ∧
    ((SpinFlyer.spin_sequence env s).1).motor.moving = false := by
  have hspec := spinLoop_spec env h1 s.num_spins 0
    { s with return_position := s.motor.position }
  rcases hl : SpinFlyer.spinLoop env s.num_spins 0
      { s with return_position := s.motor.position } with ⟨s1, okl⟩
  rw [hl] at hspec
  simp only at hspec
  obtain ⟨hok, hdata, hcs, hbusy, _⟩ := hspec
  subst hok
  have hb1 : s1.busy = false := by
    rw [hbusy]
    exact hb
  obtain ⟨hset1, hset2⟩ := set_return_eq env s1 h1 hb1
  rcases hsr : SpinFlyer.set env "Return" s1 with ⟨s2, r2, tr2⟩
  rw [hsr] at hset1 hset2
  simp only at hset1 hset2
  subst hset1
  subst hset2
  have hcs1 : s1.completion_status = some st := by
    rw [hcs]
    exact hc
  refine ⟨?_, ?_, ?_, ?_⟩ <;>
    simp only [SpinFlyer.spin_sequence, hl, hsr, hcs1] <;>
    first
      | rfl
      | simpa using hdata

/-- C1: for every configured number of cycles `n ≥ 1`, one `kickoff()`
followed by the background run, `complete()` and a full drain of
`collect()` yields exactly `n` proto-events, in insertion order, whose
sequence numbers are exactly `1, 2, ..., n`. -/
theorem claim_C1 (env : Env) (s : SpinFlyerState) (n : Nat)
    (h1 : env.moveFails = false) (hb : s.busy = false)
    (hc : s.completion_status = none) (hn : s.num_spins = n) (_hpos : 1 ≤ n) :
    ∃ sf evs, SpinFlyer.flyScan env s = Except.ok (sf, evs) ∧
      evs.length = n ∧
      evs.map Event.seq_num = List.range' 1 n := by
  have hspec := spin_sequence_spec env
    { s with data := [], completion_status := some DeviceStatus.fresh }
    DeviceStatus.fresh h1 hb rfl
  rcases hss : SpinFlyer.spin_sequence env
      { s with data := [], completion_status := some DeviceStatus.fresh } with ⟨s2, ok2⟩
  rw [hss] at hspec
  simp only at hspec
  obtain ⟨hok, hdata, hcs, hmov⟩ := hspec
  subst hok
  have hcomp : SpinFlyer.complete s2 =
      Except.ok (some (DeviceStatus.finished DeviceStatus.fresh true)) := by
    simp only [SpinFlyer.complete, hcs, hmov]
    simp
  have hcollect : SpinFlyer.collect s2 =
      Except.ok ({ s2 with completion_status := none }, s2.data) := by
    simp only [SpinFlyer.collect, hcs]
    simp [DeviceStatus.finished]
  have hflys : SpinFlyer.flyScan env s =
      Except.ok ({ s2 with completion_status := none }, s2.data) := by
    simp only [SpinFlyer.flyScan, SpinFlyer.kickoff, hc, hss, hcomp, hcollect]
  have hmap : s2.data.map Event.seq_num = List.range' 1 n := by
    rw [hdata, hn]
    simp
  refine ⟨{ s2 with completion_status := none }, s2.data, hflys, ?_, hmap⟩
  have hlen := congrArg List.length hmap
  simpa [List.length_range'] using hlen

/-- Witness for C1 on the fresh flyer configured for three cycles: the
full protocol yields exactly three records numbered 1, 2, 3. -/
theorem claim_C1_witness :
    env0.moveFails = false ∧ sN3.busy = false ∧ sN3.completion_status = none ∧
    sN3.num_spins = 3 ∧ 1 ≤ 3 ∧
    ∃ sf evs, SpinFlyer.flyScan env0 sN3 = Except.ok (sf, evs) ∧
      evs.length = 3 ∧
      evs.map Event.seq_num = List.range' 1 3 :=
  ⟨rfl, rfl, rfl, rfl, by decide,
   claim_C1 env0 sN3 3 rfl rfl rfl rfl (by decide)⟩

end FlyerDemo
